import Mathlib

set_option linter.unusedVariables false

/-!
Verification development for the remini gateway (src/remini.py).

The Python source is shallowly embedded below.  Pure string manipulation
(stripping, splitting, percent-decoding, URL splitting) is implemented over
`List Char` with structural recursion so that every definition is executable
and kernel-reducible.  The external collaborators of the core (the praw API
client, the md2gemini converter, strftime, and the environment-derived
configuration) are modelled as explicit data: an `Ext` structure holds the
external pure functions and configuration, and a `RedditEnv` structure maps
names/ids to the model objects the praw client would return.  Python
exceptions that the core itself can raise are modelled with `Except PyErr`;
the constructors of `PyErr` record the raise site (`IndexError` from token
indexing, the two `ValueError` raises in the source).
-/

namespace Remini

/-- Whitespace characters stripped by Python `str.strip()` (ASCII subset). -/
def isPyWS (c : Char) : Bool :=
  c = ' ' || c = '\t' || c = '\n' || c = '\r' || c = Char.ofNat 11 || c = Char.ofNat 12

/-- Slash character test, used for `str.strip('/')` / `str.lstrip('/')` /
`str.rstrip('/')`. -/
def isSlash (c : Char) : Bool := c = '/'

/-- Remove the longest suffix of characters satisfying `p`
(models Python `str.rstrip`). -/
def dropTrailing (p : Char → Bool) (l : List Char) : List Char :=
  (l.reverse.dropWhile p).reverse

/-- Remove the longest prefix and suffix of characters satisfying `p`
(models Python `str.strip` with a character set). -/
def stripBoth (p : Char → Bool) (l : List Char) : List Char :=
  dropTrailing p (l.dropWhile p)

/-- Value of a hexadecimal digit, if the character is one. -/
def hexVal (c : Char) : Option Nat :=
  if '0' ≤ c ∧ c ≤ '9' then some (c.toNat - '0'.toNat)
  else if 'a' ≤ c ∧ c ≤ 'f' then some (c.toNat - 'a'.toNat + 10)
  else if 'A' ≤ c ∧ c ≤ 'F' then some (c.toNat - 'A'.toNat + 10)
  else none

/-- Percent-decoding worker, structurally recursive on a fuel counter
that always dominates the list length. -/
def unquoteAux : Nat → List Char → List Char
  | 0, l => l
  | _ + 1, [] => []
  | n + 1, c :: rest =>
    if c = '%' then
      match rest with
      | c1 :: c2 :: rest2 =>
        (match hexVal c1, hexVal c2 with
         | some a, some b => Char.ofNat (16 * a + b) :: unquoteAux n rest2
         | _, _ => '%' :: unquoteAux n (c1 :: c2 :: rest2))
      | _ => c :: unquoteAux n rest
    else c :: unquoteAux n rest

/-- Percent-decoding of a character list.  Models
`urllib.parse.unquote` for the ASCII range: a `%` followed by two hex
digits becomes the denoted byte, an invalid escape leaves the `%` in
place and continues with the following characters. -/
def unquoteL (l : List Char) : List Char := unquoteAux l.length l

/-- Split a character list on a separator character.  Models Python
`str.split(sep)`: the empty string yields `[[]]`, separators at the ends
yield empty segments. -/
def splitCh (sep : Char) : List Char → List (List Char)
  | [] => [[]]
  | c :: rest =>
    let r := splitCh sep rest
    if c = sep then [] :: r
    else
      match r with
      | [] => [[c]]
      | h :: t => (c :: h) :: t

/-- Python `s.split(sep)` on strings. -/
def pySplit (sep : Char) (s : String) : List String :=
  (splitCh sep s.data).map String.mk

/-- Python `s.startswith(pre)`. -/
def pyStartsWith (s pre : String) : Bool :=
  pre.data.isPrefixOf s.data

/-- Python `sep.join(xs)`. -/
def joinSep (sep : String) : List String → String
  | [] => ""
  | [x] => x
  | x :: y :: rest => x ++ sep ++ joinSep sep (y :: rest)

/-- Python `s.lstrip(chars)`: remove every leading character drawn from the
set of characters of `chars`. -/
def lstripChars (chars : String) (s : String) : String :=
  String.mk (s.data.dropWhile (fun c => chars.data.contains c))

/-- The `if not tokens[0]: tokens = tokens[1:]` step of `handle_request`:
drop one leading empty token. -/
def dropLeadingEmpty : List (List Char) → List (List Char)
  | [] :: rest => rest
  | other => other

/-- The `if not tokens[-1]: tokens.pop()` step of `handle_request`: drop
one trailing empty token.  (On the empty list the source would raise; in
the `handle_request` flow the list here is never empty.) -/
def dropTrailingEmpty (t : List (List Char)) : List (List Char) :=
  match t.getLast? with
  | some [] => t.dropLast
  | _ => t

/-- The token post-processing of `handle_request` applied to the
percent-decoded path: split on `/`, drop one leading empty token, then
drop one trailing empty token. -/
def tokenizeL (decoded : List Char) : List (List Char) :=
  dropTrailingEmpty (dropLeadingEmpty (splitCh '/' decoded))

/-- The path after `path.strip().strip('/')` in `handle_request`. -/
def strippedPath (path : String) : List Char :=
  stripBoth isSlash (stripBoth isPyWS path.data)

/-- The token list `handle_request` computes for a request path:
strip whitespace and surrounding slashes, percent-decode, split on `/`,
drop one leading and one trailing empty token. -/
def tokensOf (path : String) : List String :=
  (tokenizeL (unquoteL (strippedPath path))).map String.mk

/-- Exceptions the embedded core can raise, tagged by their raise site. -/
inductive PyErr where
  | indexError : PyErr
  | valueErrorSortby : String → PyErr
  | valueErrorParentId : String → PyErr
deriving DecidableEq

/-- Predicate selecting the `ValueError` raised for a bad `sortby`. -/
def PyErr.isSortby : PyErr → Bool
  | .valueErrorSortby _ => true
  | _ => false

/-- Response envelope produced by the responder helpers `ok`,
`redirect`, `get_input` and `bad_request` of the source; the constructor
records which helper built the response (the `20`/`3x`/`10`/`59` status
of the byte envelope) together with its payload. -/
inductive Resp where
  | success : String → Resp
  | redirected : Nat → String → Resp
  | inputPrompt : String → Resp
  | badRequest : String → Resp
deriving DecidableEq

/-- Model of `ok`: join the lines on a newline (or concatenate as-is)
into a success response. -/
def ok_response (lines : List String) (join_on_newline : Bool) : Resp :=
  .success (if join_on_newline then joinSep "\n" lines else joinSep "" lines)

/-- Model of `bad_request`. -/
def bad_request (msg : String) : Resp := .badRequest msg

/-- Model of `get_input`. -/
def get_input (msg : String) : Resp := .inputPrompt msg

/-- Model of `redirect`: code 31 for permanent, 30 otherwise. -/
def redirect (url : String) (perm : Bool) : Resp :=
  .redirected (if perm then 31 else 30) url

/-- Result of `urllib.parse.urlparse` restricted to the four fields the
source reads. -/
structure ParsedURL where
  scheme : String
  netloc : String
  path : String
  query : String

/-- Characters allowed in a URL scheme after the initial letter. -/
def schemeChar (c : Char) : Bool :=
  c.isAlphanum || c = '+' || c = '-' || c = '.'

/-- Split a list at the first occurrence of a character, if present. -/
def splitFirstChar (sep : Char) : List Char → Option (List Char × List Char)
  | [] => none
  | c :: rest =>
    if c = sep then some ([], rest)
    else
      match splitFirstChar sep rest with
      | none => none
      | some (a, b) => some (c :: a, b)

/-- Model of `urllib.parse.urlparse` (scheme, netloc, path, query): an
initial `letter(letter|digit|+|-|.)*:` prefix is the scheme (lowercased);
a following `//` introduces the netloc, ended by `/`, `?` or `#`; a `#`
starts the fragment (discarded) and a `?` the query. -/
def urlparse (url : String) : ParsedURL :=
  let cs := url.data
  let sr :=
    match splitFirstChar ':' cs with
    | some (pre, post) =>
      match pre with
      | [] => (([] : List Char), cs)
      | c0 :: _ =>
        if c0.isAlpha ∧ pre.all schemeChar then (pre.map Char.toLower, post)
        else (([] : List Char), cs)
    | none => (([] : List Char), cs)
  let scheme := sr.1
  let r1 := sr.2
  let nr :=
    match r1 with
    | '/' :: '/' :: rest =>
      let n := rest.takeWhile (fun c => !(c = '/' || c = '?' || c = '#'))
      (n, rest.drop n.length)
    | other => (([] : List Char), other)
  let netloc := nr.1
  let r2 := nr.2
  let r3 :=
    match splitFirstChar '#' r2 with
    | some (a, _) => a
    | none => r2
  let pq :=
    match splitFirstChar '?' r3 with
    | some (a, b) => (a, b)
    | none => (r3, ([] : List Char))
  ⟨String.mk scheme, String.mk netloc, String.mk pq.1, String.mk pq.2⟩

/-- The recognized upstream domains (`REDDIT_DOMAINS` of the source). -/
def REDDIT_DOMAINS : List (List String) := [["redd", "it"], ["reddit", "com"]]

/-- Python `l[-2:]`: the last two elements of a list. -/
def lastTwo (l : List String) : List String := l.drop (l.length - 2)

/-- External collaborators and configuration of the core: `strftime`
models `datetime.utcfromtimestamp(t).strftime(fmt)`, `md2gemini` the
markdown converter (with `links='paragraph'`), `baseURL` the
`REMINI_BASE_URL` variable and `landingPage` the optional
`REMINI_LANDING_PAGE` file contents as returned by `readlines()`. -/
structure Ext where
  strftime : String → Int → String
  md2gemini : String → String
  baseURL : String
  landingPage : Option (List String)

/-- Check-only specialization of `handle_r`: the source function with
`check_only=True`, in which every branch returns its boolean before any
rendering. -/
def check_handle_r (tokens : List String) : Bool :=
  if tokens.length ≥ 5 ∧ tokens[1]? = some "comments" then true
  else if tokens.length ≥ 3 ∧ tokens[1]? = some "comments" then true
  else if tokens.length = 1 then true
  else if ¬ tokens.isEmpty then false
  else true

/-- Check-only specialization of `handle_u`. -/
def check_handle_u (tokens : List String) : Bool :=
  if ¬ tokens.isEmpty then
    if tokens.length = 1 then true else false
  else true

/-- Check-only specialization of `handle_request`: strip the path, handle
the empty path, tokenize, and dispatch on the first token.  An empty token
list reproduces the `tokens[0]` `IndexError` of the source. -/
def check_handle_request (path query : String) : Except PyErr Bool :=
  let p := strippedPath path
  if p.isEmpty then .ok true
  else
    match tokensOf path with
    | [] => .error .indexError
    | cmd :: rest =>
      if cmd = "r" then .ok (check_handle_r rest)
      else if cmd = "u" then .ok (check_handle_u rest)
      else .ok false

/-- Model of `parse_reddit_url`: a relative URL, or one whose last two
host labels match a recognized domain, is rewritten to the base URL plus
the slash-stripped path whenever the check-only router supports the path;
otherwise the URL is returned unchanged. -/
def parse_reddit_url (ext : Ext) (url : String) : Except PyErr String :=
  let parsed := urlparse url
  let reddit_url :=
    if parsed.scheme = "" ∧ parsed.netloc = "" then true
    else decide (lastTwo (pySplit '.' parsed.netloc) ∈ REDDIT_DOMAINS)
  if reddit_url then
    match check_handle_request parsed.path parsed.query with
    | .error e => .error e
    | .ok true => .ok (ext.baseURL ++ String.mk (parsed.path.data.dropWhile isSlash))
    | .ok false => .ok url
  else .ok url

/-- Per-line post-processing of `parse_markdown`: a line starting with one
or two heading markers gets one more marker prepended; a link line has its
target passed through `parse_reddit_url`. -/
def markdownLine (ext : Ext) (line : String) : Except PyErr String :=
  if pyStartsWith line "#" || pyStartsWith line "##" then .ok ("#" ++ line)
  else if pyStartsWith line "=> " then
    match pySplit ' ' line with
    | t0 :: t1 :: rest =>
      match parse_reddit_url ext t1 with
      | .error e => .error e
      | .ok u => .ok (joinSep " " (t0 :: u :: rest))
    | _ => .error .indexError
  else .ok line

/-- Apply `markdownLine` to every line, propagating the first error. -/
def mapLinesM (ext : Ext) : List String → Except PyErr (List String)
  | [] => .ok []
  | l :: rest =>
    match markdownLine ext l with
    | .error e => .error e
    | .ok l2 =>
      match mapLinesM ext rest with
      | .error e => .error e
      | .ok r => .ok (l2 :: r)

/-- Model of `parse_markdown`: convert with `md2gemini`, split into lines,
and post-process each line. -/
def parse_markdown (ext : Ext) (md : String) : Except PyErr (List String) :=
  mapLinesM ext (pySplit '\n' (ext.md2gemini md))

/-- Model of a `praw.models.Comment`: the fields the source reads.
`authorName` is `none` when `comment.author.name` would raise
(deleted author); `replies` models the loaded reply list;
`submissionTitle` models `comment.submission.title`. -/
inductive CommentM where
  | mk : (body permalink parentId : String) → (authorName : Option String) →
      (createdUtc : Int) → (edited : Bool) → (score : Int) →
      (replies : List CommentM) → (submissionTitle : String) → CommentM

def CommentM.body : CommentM → String
  | .mk b _ _ _ _ _ _ _ _ => b

def CommentM.permalink : CommentM → String
  | .mk _ p _ _ _ _ _ _ _ => p

def CommentM.parentId : CommentM → String
  | .mk _ _ i _ _ _ _ _ _ => i

def CommentM.authorName : CommentM → Option String
  | .mk _ _ _ a _ _ _ _ _ => a

def CommentM.createdUtc : CommentM → Int
  | .mk _ _ _ _ t _ _ _ _ => t

def CommentM.edited : CommentM → Bool
  | .mk _ _ _ _ _ e _ _ _ => e

def CommentM.score : CommentM → Int
  | .mk _ _ _ _ _ _ s _ _ => s

def CommentM.replies : CommentM → List CommentM
  | .mk _ _ _ _ _ _ _ r _ => r

def CommentM.submissionTitle : CommentM → String
  | .mk _ _ _ _ _ _ _ _ t => t

/-- Model of a `praw.models.Submission`: the fields the source reads. -/
structure SubmissionM where
  title : String
  url : String
  permalink : String
  authorName : Option String
  createdUtc : Int
  edited : Bool
  score : Int
  numComments : Int
  selftext : String
  comments : List CommentM

/-- Model of a `praw.models.Subreddit`: metadata plus the four listing
methods, each a function of the requested limit. -/
structure SubredditM where
  displayName : String
  createdUtc : Int
  subscribers : Int
  hot : Nat → List SubmissionM
  top : Nat → List SubmissionM
  new : Nat → List SubmissionM
  controversial : Nat → List SubmissionM

/-- Model of a `praw.models.Redditor`.  `isSuspended = none` models an
account without the `is_suspended` attribute (the `AttributeError`
branch of the source). -/
structure RedditorM where
  name : String
  isSuspended : Option Bool
  createdUtc : Int
  linkKarma : Int
  commentKarma : Int
  submissionsNew : Nat → List SubmissionM
  commentsNew : Nat → List CommentM

/-- The praw client: maps a name or id to the model object the
corresponding `reddit.*` call would return. -/
structure RedditEnv where
  subreddit : String → SubredditM
  submission : String → SubmissionM
  comment : String → CommentM
  redditor : String → RedditorM

/-- `ITEM_LIMIT` of the source. -/
def ITEM_LIMIT : Nat := 25

/-- `DATE_FMT` of the source. -/
def DATE_FMT : String := "%d/%m/%Y"

/-- `DATETIME_FMT` of the source. -/
def DATETIME_FMT : String := DATE_FMT ++ " at %H:%M UTC"

/-- Model of `date_time`: format the creation time and append `*` when
the object has a truthy `edited` attribute; `edited = none` models an
object without the attribute (the `AttributeError` branch). -/
def date_time (ext : Ext) (createdUtc : Int) (edited : Option Bool)
    (date_only : Bool) : String :=
  let fmt := if date_only then DATE_FMT else DATETIME_FMT
  let s := ext.strftime fmt createdUtc
  match edited with
  | some true => s ++ "*"
  | _ => s

/-- Model of `author`: the author name, or the `[deleted]` sentinel when
`obj.author.name` would raise. -/
def author (authorName : Option String) : String :=
  match authorName with
  | some n => n
  | none => "[deleted]"

/-- Model of `get_submission_url`: drop the last segment of the
slash-stripped permalink and re-parse. -/
def get_submission_url (ext : Ext) (comment : CommentM) : Except PyErr String :=
  parse_reddit_url ext
    (joinSep "/" ((pySplit '/' (String.mk (dropTrailing isSlash comment.permalink.data))).dropLast))

/-- The fragment list `get_parent_url` builds for a comment parent: the
permalink segments with the last one replaced by
`parent_id.lstrip('t1_')` (a character-set strip, not a prefix removal). -/
def parent_fragments (comment : CommentM) : List String :=
  (pySplit '/' (String.mk (dropTrailing isSlash comment.permalink.data))).dropLast
    ++ [lstripChars "t1_" comment.parentId]

/-- Model of `get_parent_url`: parent comment (`t1_`), parent submission
(`t3_`), or a `ValueError` for any other prefix. -/
def get_parent_url (ext : Ext) (comment : CommentM) : Except PyErr (String × Bool) :=
  let parent_id := comment.parentId
  if pyStartsWith parent_id "t1_" then
    match parse_reddit_url ext (joinSep "/" (parent_fragments comment)) with
    | .error e => .error e
    | .ok u => .ok (u, false)
  else if pyStartsWith parent_id "t3_" then
    match get_submission_url ext comment with
    | .error e => .error e
    | .ok u => .ok (u, true)
  else
    .error (.valueErrorParentId
      ("Bad ID \"" ++ parent_id ++ "\". Expecting it to start with t1_ or t3_."))

/-- Model of `submission_summary`: link line, metadata line, comments
link line. -/
def submission_summary (ext : Ext) (submission : SubmissionM) :
    Except PyErr (List String) :=
  match parse_reddit_url ext submission.url with
  | .error e => .error e
  | .ok url =>
    let line1 := "=> " ++ url ++ " " ++ submission.title
    let author_name := author submission.authorName
    let timestamp := date_time ext submission.createdUtc (some submission.edited) false
    let parsed := urlparse submission.url
    let line2 := "created by " ++ author_name ++ " on " ++ timestamp ++ " - "
      ++ toString submission.score ++ " upvotes (" ++ parsed.scheme ++ ", "
      ++ parsed.netloc ++ ")"
    match parse_reddit_url ext submission.permalink with
    | .error e => .error e
    | .ok comments_url =>
      let line3 := "=> " ++ comments_url ++ " " ++ toString submission.numComments
        ++ " comments"
      .ok [line1, line2, line3]

/-- Model of `comment_summary`: permalink line, metadata line, blank
line, then the rendered body. -/
def comment_summary (ext : Ext) (comment : CommentM) (show_num_replies : Bool) :
    Except PyErr (List String) :=
  let author_name := author comment.authorName
  let timestamp := date_time ext comment.createdUtc (some comment.edited) false
  match parse_markdown ext comment.body with
  | .error e => .error e
  | .ok body =>
    match parse_reddit_url ext comment.permalink with
    | .error e => .error e
    | .ok url =>
      let metadata := toString comment.score ++ " upvotes"
        ++ (if show_num_replies then
              ", " ++ toString comment.replies.length ++ " direct replies"
            else "")
      .ok (["=> " ++ url ++ " Comment by " ++ author_name ++ " at " ++ timestamp,
            metadata, ""] ++ body)

/-- The `for s in submissions` loop body shared by `display_subreddit`
and `display_redditor`: each summary followed by a blank line. -/
def submission_blocks (ext : Ext) : List SubmissionM → Except PyErr (List String)
  | [] => .ok []
  | s :: rest =>
    match submission_summary ext s with
    | .error e => .error e
    | .ok block =>
      match submission_blocks ext rest with
      | .error e => .error e
      | .ok r => .ok (block ++ "" :: r)

/-- The `for c in comments` loop body of the display functions: each
comment summary followed by a blank line. -/
def comment_blocks (ext : Ext) (show_num_replies : Bool) :
    List CommentM → Except PyErr (List String)
  | [] => .ok []
  | c :: rest =>
    match comment_summary ext c show_num_replies with
    | .error e => .error e
    | .ok block =>
      match comment_blocks ext show_num_replies rest with
      | .error e => .error e
      | .ok r => .ok (block ++ "" :: r)

/-- Python truthiness of a praw `ListingGenerator`, the object returned
by `subreddit.hot(...)`, `redditor.submissions.new(...)` and
`redditor.comments.new(...)`.  The class defines neither `__bool__` nor
`__len__`, so the generator is truthy whatever items it will yield —
independently of the item list that models its contents. -/
def listing_truthy {α : Type} (items : List α) : Bool := true

/-- The listing selection of `display_subreddit`: one of the four praw
listing calls (each with `limit=ITEM_LIMIT`), or the `ValueError` for an
unrecognized sort key. -/
def selectListing (subreddit : SubredditM) (sortby : String) :
    Except PyErr (List SubmissionM) :=
  if sortby = "hot" then .ok (subreddit.hot ITEM_LIMIT)
  else if sortby = "top" then .ok (subreddit.top ITEM_LIMIT)
  else if sortby = "new" then .ok (subreddit.new ITEM_LIMIT)
  else if sortby = "controversial" then .ok (subreddit.controversial ITEM_LIMIT)
  else .error (.valueErrorSortby ("Bad value for sortby: \"" ++ sortby ++ "\"."))

/-- Model of `display_subreddit`.  The `limit` parameter is declared by
the source with default 10 but never read by its body.  The two adjacent
string literals after the `'## Submissions'` element of the source
concatenate into that same element, so the header has four lines.  The
`if not submissions:` guard tests the truthiness of the praw
`ListingGenerator` (`listing_truthy`), which is always `true`, so the
placeholder branch is dead code. -/
def display_subreddit (ext : Ext) (env : RedditEnv) (name sortby : String)
    (limit : Nat) : Except PyErr (List String) :=
  let subreddit := env.subreddit name
  let timestamp := date_time ext subreddit.createdUtc none true
  let lines := ["# Subreddit: " ++ subreddit.displayName,
                "Created on " ++ timestamp ++ ". "
                  ++ toString subreddit.subscribers ++ " subscribers.",
                "",
                "## Submissions"]
  match selectListing subreddit sortby with
  | .error e => .error e
  | .ok submissions =>
    let lines := if ¬ listing_truthy submissions
      then lines ++ ["There's nothing here!"] else lines
    match submission_blocks ext submissions with
    | .error e => .error e
    | .ok blocks => .ok (lines ++ blocks)

/-- The final section shared by `display_submission` and
`display_comment`: append either the placeholder (empty item list) or
the summaries of the items, each with its reply count shown. -/
def items_section (ext : Ext) (lines : List String) (items : List CommentM) :
    Except PyErr (List String) :=
  if items.isEmpty then .ok (lines ++ ["There's nothing here!"])
  else
    match comment_blocks ext true items with
    | .error e => .error e
    | .ok blocks => .ok (lines ++ blocks)

/-- Model of `display_submission`: header, optional self-text, comments
section capped at `ITEM_LIMIT`. -/
def display_submission (ext : Ext) (env : RedditEnv) (submission_id : String) :
    Except PyErr (List String) :=
  let submission := env.submission submission_id
  let timestamp := date_time ext submission.createdUtc (some submission.edited) false
  let comments := submission.comments.take ITEM_LIMIT
  let total_comments := submission.comments.length
  let showing_comments := comments.length
  let header := ["# " ++ submission.title,
                 "=> " ++ submission.url,
                 "created by " ++ author submission.authorName ++ " on " ++ timestamp,
                 toString submission.score ++ " upvotes, " ++ toString total_comments
                   ++ " top-level comments (showing " ++ toString showing_comments ++ ")",
                 ""]
  if submission.selftext ≠ "" then
    match parse_markdown ext submission.selftext with
    | .error e => Except.error e
    | .ok body =>
      items_section ext (header ++ body ++ [""] ++ ["", "# Comments", ""]) comments
  else items_section ext (header ++ ["", "# Comments", ""]) comments

/-- Model of `display_comment`: heading, counts line, submission link,
optional parent-comment link, body, replies section capped at
`ITEM_LIMIT`. -/
def display_comment (ext : Ext) (env : RedditEnv) (comment_id : String) :
    Except PyErr (List String) :=
  let comment := env.comment comment_id
  let author_name := author comment.authorName
  let timestamp := date_time ext comment.createdUtc (some comment.edited) false
  match parse_markdown ext comment.body with
  | .error e => .error e
  | .ok body =>
    let replies := comment.replies.take ITEM_LIMIT
    let total_replies := comment.replies.length
    let showing_replies := replies.length
    match get_submission_url ext comment with
    | .error e => .error e
    | .ok sub_url =>
      let lines := ["# Comment by " ++ author_name ++ " on " ++ timestamp,
                    toString comment.score ++ " upvotes, " ++ toString total_replies
                      ++ " direct replies (showing " ++ toString showing_replies ++ ")",
                    "=> " ++ sub_url ++ " View submission: " ++ comment.submissionTitle]
      match get_parent_url ext comment with
      | .error e => .error e
      | .ok (parent_url, is_submission) =>
        let lines := if ¬ is_submission
          then lines ++ ["=> " ++ parent_url ++ " View parent comment"] else lines
        items_section ext (lines ++ [""] ++ body ++ ["", "", "# Replies", ""]) replies

/-- The Submissions section of `display_redditor`.  The
`if submissions:` guard tests the truthiness of the praw
`ListingGenerator` (`listing_truthy`), which is always `true`, so the
`User has no submissions.` placeholder branch is dead code. -/
def redditor_submission_section (ext : Ext) (redditor : RedditorM) :
    Except PyErr (List String) :=
  let submissions := redditor.submissionsNew ITEM_LIMIT
  if listing_truthy submissions then submission_blocks ext submissions
  else .ok ["User has no submissions.", ""]

/-- The Comments section of `display_redditor`.  The `if comments:`
guard tests the truthiness of the praw `ListingGenerator`
(`listing_truthy`), which is always `true`, so the
`User has no comments.` placeholder branch is dead code. -/
def redditor_comment_section (ext : Ext) (redditor : RedditorM) :
    Except PyErr (List String) :=
  let comments := redditor.commentsNew ITEM_LIMIT
  if listing_truthy comments then comment_blocks ext false comments
  else .ok ["User has no comments.", ""]

/-- Model of `display_redditor`: heading, then either the suspension
notice (immediate return) or karma line, Submissions section and
Comments section. -/
def display_redditor (ext : Ext) (env : RedditEnv) (name : String) :
    Except PyErr (List String) :=
  let redditor := env.redditor name
  let lines := ["# Redditor: " ++ redditor.name]
  match redditor.isSuspended with
  | some true => .ok (lines ++ ["User is banned or suspended."])
  | _ =>
    let timestamp := date_time ext redditor.createdUtc none true
    let lines := lines ++
      ["Redditor since " ++ timestamp ++ " (" ++ toString redditor.linkKarma
         ++ " link karma, " ++ toString redditor.commentKarma ++ " comment karma)",
       "", "# Submissions", ""]
    match redditor_submission_section ext redditor with
    | .error e => .error e
    | .ok subLines =>
      let lines := lines ++ subLines ++ ["# Comments", ""]
      match redditor_comment_section ext redditor with
      | .error e => .error e
      | .ok comLines => .ok (lines ++ comLines)

/-- Model of `handle_r` with `check_only=False`: same branch structure as
`check_handle_r`, dispatching to the display functions. -/
def handle_r (ext : Ext) (env : RedditEnv) (tokens : List String)
    (path query : String) : Except PyErr Resp :=
  if tokens.length ≥ 5 ∧ tokens[1]? = some "comments" then
    let comment_id := (tokens[4]?).getD ""
    match display_comment ext env comment_id with
    | .error e => .error e
    | .ok lines => .ok (ok_response lines true)
  else if tokens.length ≥ 3 ∧ tokens[1]? = some "comments" then
    let submission_id := (tokens[2]?).getD ""
    match display_submission ext env submission_id with
    | .error e => .error e
    | .ok lines => .ok (ok_response lines true)
  else if tokens.length = 1 then
    let name := (tokens[0]?).getD ""
    match display_subreddit ext env name "hot" 10 with
    | .error e => .error e
    | .ok lines => .ok (ok_response lines true)
  else if ¬ tokens.isEmpty then
    .ok (bad_request ("Request invalid or not supported: " ++ path))
  else if query ≠ "" then
    .ok (redirect (ext.baseURL ++ "r/" ++ query) true)
  else .ok (get_input "Enter subreddit name:")

/-- Model of `handle_u` with `check_only=False`. -/
def handle_u (ext : Ext) (env : RedditEnv) (tokens : List String)
    (path query : String) : Except PyErr Resp :=
  if ¬ tokens.isEmpty then
    if tokens.length = 1 then
      let name := (tokens[0]?).getD ""
      match display_redditor ext env name with
      | .error e => .error e
      | .ok lines => .ok (ok_response lines true)
    else .ok (bad_request ("Request invalid or not supported: " ++ path))
  else if query ≠ "" then
    .ok (redirect (ext.baseURL ++ "u/" ++ query) true)
  else .ok (get_input "Enter Redditor name:")

/-- Model of `handle_request` with `check_only=False`: strip the path,
serve the landing page on an empty path, tokenize and dispatch on the
first token; an empty token list reproduces the `tokens[0]`
`IndexError`. -/
def handle_request (ext : Ext) (env : RedditEnv) (path query : String) :
    Except PyErr Resp :=
  let p := strippedPath path
  if p.isEmpty then
    match ext.landingPage with
    | some fileLines => .ok (ok_response fileLines false)
    | none => .ok (ok_response ["Remini is working, but no landing page has been set."] true)
  else
    match tokensOf path with
    | [] => .error .indexError
    | cmd :: rest =>
      if cmd = "r" then handle_r ext env rest (String.mk p) query
      else if cmd = "u" then handle_u ext env rest (String.mk p) query
      else .ok (bad_request ("Couldn't parse path \"" ++ String.mk p ++ "\"."))

/-!  Concrete fixtures used by the witness theorems below. -/

/-- A comment whose parent is its submission. -/
def comment0 : CommentM :=
  .mk "body text" "/r/test/comments/abc/slug/de1" "t3_abc" (some "alice") 0 false 1 [] "Hello"

/-- A submission with a non-Reddit external URL and an empty comment list. -/
def submission0 : SubmissionM where
  title := "Hello"
  url := "https://example.com/x"
  permalink := "/r/test/comments/ab1"
  authorName := some "alice"
  createdUtc := 0
  edited := false
  score := 5
  numComments := 3
  selftext := ""
  comments := []

/-- A subreddit whose four listings are all empty. -/
def subreddit0 : SubredditM where
  displayName := "test"
  createdUtc := 0
  subscribers := 7
  hot := fun _ => []
  top := fun _ => []
  new := fun _ => []
  controversial := fun _ => []

/-- An ordinary (not suspended) redditor with empty listings. -/
def redditor0 : RedditorM where
  name := "bob"
  isSuspended := none
  createdUtc := 0
  linkKarma := 1
  commentKarma := 2
  submissionsNew := fun _ => []
  commentsNew := fun _ => []

/-- External collaborators fixed to simple pure values: a constant
`strftime`, the identity markdown converter, a base URL ending in `/`
and no landing page. -/
def ext0 : Ext where
  strftime := fun _ _ => "01/01/2020"
  md2gemini := fun md => md
  baseURL := "gemini://g.example/"
  landingPage := none

/-- A praw client returning the default fixtures for every name. -/
def env0 : RedditEnv where
  subreddit := fun _ => subreddit0
  submission := fun _ => submission0
  comment := fun _ => comment0
  redditor := fun _ => redditor0

end Remini

deriving instance DecidableEq for Except

namespace Remini

/-!  General lemmas about the string helpers. -/

/-- Decoding a percent-free list is the identity, for sufficient fuel. -/
theorem unquoteAux_no_pct (n : Nat) (l : List Char) (h : ¬ '%' ∈ l) :
    unquoteAux n l = l := by
  induction n generalizing l with
  | zero => rfl
  | succ n ih =>
    match l with
    | [] => rfl
    | c :: rest =>
      have hc : ¬ c = '%' := fun hc => h (hc ▸ List.mem_cons_self c rest)
      have hrest : ¬ '%' ∈ rest := fun hm => h (List.mem_cons_of_mem c hm)
      have step : unquoteAux (n + 1) (c :: rest) = c :: unquoteAux n rest := by
        simp [unquoteAux, hc]
      rw [step, ih rest hrest]

/-- Decoding a percent-free list is the identity. -/
theorem unquoteL_no_pct (l : List Char) (h : ¬ '%' ∈ l) : unquoteL l = l :=
  unquoteAux_no_pct l.length l h

/-- The head of `dropWhile p` does not satisfy `p`. -/
theorem head?_dropWhile (p : Char → Bool) (l : List Char) (x : Char)
    (h : (l.dropWhile p).head? = some x) : p x = false := by
  induction l with
  | nil => simp at h
  | cons c rest ih =>
    by_cases hc : p c
    · rw [List.dropWhile_cons_of_pos hc] at h
      exact ih h
    · rw [List.dropWhile_cons_of_neg hc] at h
      simp only [List.head?_cons, Option.some.injEq] at h
      subst h
      simpa using hc

/-- `dropTrailing p l` is a prefix of `l`. -/
theorem dropTrailing_isPrefix (p : Char → Bool) (l : List Char) :
    dropTrailing p l <+: l := by
  have h : l.reverse.dropWhile p <:+ l.reverse := List.dropWhile_suffix p
  have h2 : (l.reverse.dropWhile p).reverse <+: l.reverse.reverse := by
    rcases h with ⟨t, ht⟩
    exact ⟨t.reverse, by rw [← List.reverse_append, ht]⟩
  rwa [List.reverse_reverse] at h2

/-- The last element of `dropTrailing p l` does not satisfy `p`. -/
theorem getLast?_dropTrailing (p : Char → Bool) (l : List Char) (x : Char)
    (h : (dropTrailing p l).getLast? = some x) : p x = false := by
  unfold dropTrailing at h
  rw [List.getLast?_reverse] at h
  exact head?_dropWhile p l.reverse x h

/-- A non-empty prefix has the same head. -/
theorem IsPrefix.head?_eq {α : Type} {l r : List α} (h : r <+: l) (x : α)
    (hx : r.head? = some x) : l.head? = some x := by
  rcases h with ⟨t, ht⟩
  match r, hx with
  | c :: r2, hx =>
    simp at hx
    rw [← ht]
    simp [hx]

/-- The head of `stripBoth p l` does not satisfy `p`. -/
theorem head?_stripBoth (p : Char → Bool) (l : List Char) (x : Char)
    (h : (stripBoth p l).head? = some x) : p x = false := by
  unfold stripBoth at h
  have h2 := IsPrefix.head?_eq (dropTrailing_isPrefix p (l.dropWhile p)) x h
  exact head?_dropWhile p l x h2

/-- The last element of `stripBoth p l` does not satisfy `p`. -/
theorem getLast?_stripBoth (p : Char → Bool) (l : List Char) (x : Char)
    (h : (stripBoth p l).getLast? = some x) : p x = false :=
  getLast?_dropTrailing p (l.dropWhile p) x h

/-- `splitCh` never returns the empty list of segments. -/
theorem splitCh_ne_nil (sep : Char) (l : List Char) : splitCh sep l ≠ [] := by
  match l with
  | [] => simp [splitCh]
  | c :: rest =>
    simp only [splitCh]
    by_cases hc : c = sep
    · simp [hc]
    · simp only [if_neg hc]
      match splitCh sep rest with
      | [] => simp
      | h :: t => simp

/-- On a list that does not start with the separator, the first segment
of `splitCh` is non-empty. -/
theorem splitCh_head_ne_nil (sep : Char) (l : List Char) (hne : l ≠ [])
    (hh : l.head? ≠ some sep) :
    ∃ h t, splitCh sep l = h :: t ∧ h ≠ [] := by
  match l with
  | c :: rest =>
    have hc : ¬ c = sep := by simpa using hh
    simp only [splitCh, if_neg hc]
    match hr : splitCh sep rest with
    | [] => exact ⟨[c], [], rfl, by simp⟩
    | h :: t => exact ⟨c :: h, t, rfl, by simp⟩

/-- On a non-empty list that does not end with the separator, the last
segment of `splitCh` is non-empty. -/
theorem splitCh_getLast_ne_nil (sep : Char) (l : List Char) (hne : l ≠ [])
    (hl : l.getLast? ≠ some sep) :
    ∀ x, (splitCh sep l).getLast? = some x → x ≠ [] := by
  induction l with
  | nil => exact absurd rfl hne
  | cons c rest ih =>
    intro x hx
    match rest with
    | [] =>
      have hc : ¬ c = sep := by simpa using hl
      simp only [splitCh, if_neg hc] at hx
      simp at hx
      simp [← hx]
    | c2 :: r2 =>
      have hl2 : (c2 :: r2).getLast? ≠ some sep := by
        rwa [List.getLast?_cons_cons] at hl
      have hr := splitCh_ne_nil sep (c2 :: r2)
      have hstep : splitCh sep (c :: c2 :: r2) =
          if c = sep then [] :: splitCh sep (c2 :: r2)
          else
            match splitCh sep (c2 :: r2) with
            | [] => [[c]]
            | h :: t => (c :: h) :: t := rfl
      rw [hstep] at hx
      match hs : splitCh sep (c2 :: r2), hr with
      | h :: t, _ =>
        rw [hs] at hx
        by_cases hc : c = sep
        · rw [if_pos hc, List.getLast?_cons_cons] at hx
          exact ih (by simp) hl2 x (by rw [hs]; exact hx)
        · rw [if_neg hc] at hx
          have hx2 : ((c :: h) :: t).getLast? = some x := hx
          match t with
          | [] =>
            simp at hx2
            simp [← hx2]
          | t1 :: t2 =>
            rw [List.getLast?_cons_cons] at hx2
            exact ih (by simp) hl2 x
              (by rw [hs, List.getLast?_cons_cons]; exact hx2)

/-- Dropping a leading empty token does nothing when the first token is
non-empty. -/
theorem dropLeadingEmpty_of_ne (h : List Char) (t : List (List Char))
    (hne : h ≠ []) : dropLeadingEmpty (h :: t) = h :: t := by
  match h with
  | c :: h2 => rfl

/-- Dropping a trailing empty token does nothing when the last token is
non-empty. -/
theorem dropTrailingEmpty_of_ne (t : List (List Char)) (x : List Char)
    (hx : t.getLast? = some x) (hne : x ≠ []) : dropTrailingEmpty t = t := by
  unfold dropTrailingEmpty
  rw [hx]
  match x, hne with
  | c :: x2, _ => rfl

/-- Every element of `stripBoth p l` is an element of `l`. -/
theorem mem_stripBoth (p : Char → Bool) (l : List Char) (x : Char)
    (hx : x ∈ stripBoth p l) : x ∈ l := by
  have h1 : List.Sublist (stripBoth p l) (l.dropWhile p) :=
    (dropTrailing_isPrefix p (l.dropWhile p)).sublist
  have h2 : List.Sublist (l.dropWhile p) l := (List.dropWhile_suffix p).sublist
  exact h2.subset (h1.subset hx)

/-- For a path without percent escapes, the token list of
`handle_request` neither begins nor ends with an empty token: after the
initial strip, the path neither begins nor ends with a slash, so the
first and last segments of the split are non-empty and both drops are
no-ops. -/
theorem tokensOf_no_pct (path : String) (h : ¬ '%' ∈ path.data) :
    (tokensOf path).head? ≠ some "" ∧ (tokensOf path).getLast? ≠ some "" := by
  have hs : ¬ '%' ∈ strippedPath path := by
    intro hm
    exact h (mem_stripBoth isPyWS path.data '%'
      (mem_stripBoth isSlash (stripBoth isPyWS path.data) '%' hm))
  have hdec : unquoteL (strippedPath path) = strippedPath path :=
    unquoteL_no_pct _ hs
  unfold tokensOf tokenizeL
  rw [hdec]
  match hsp : strippedPath path with
  | [] => simp [splitCh, dropLeadingEmpty, dropTrailingEmpty]
  | c :: rest =>
    have hsp2 : stripBoth isSlash (stripBoth isPyWS path.data) = c :: rest := hsp
    have hhead : ¬ (c :: rest).head? = some '/' := by
      intro hc
      simp at hc
      have := head?_stripBoth isSlash (stripBoth isPyWS path.data) c
        (by rw [hsp2]; simp)
      rw [hc] at this
      simp [isSlash] at this
    obtain ⟨sh, st, hsplit, hshne⟩ :=
      splitCh_head_ne_nil '/' (c :: rest) (by simp) hhead
    have hlastc : (c :: rest).getLast? ≠ some '/' := by
      intro hc
      have hgl := getLast?_stripBoth isSlash (stripBoth isPyWS path.data) '/'
        (by rw [hsp2]; exact hc)
      simp [isSlash] at hgl
    have hlast := splitCh_getLast_ne_nil '/' (c :: rest) (by simp) hlastc
    rw [hsplit]
    rw [dropLeadingEmpty_of_ne sh st hshne]
    match hgl : (sh :: st).getLast? with
    | some x =>
      have hxne : x ≠ [] := hlast x (by rw [hsplit]; exact hgl)
      rw [dropTrailingEmpty_of_ne (sh :: st) x hgl hxne]
      constructor
      · rw [List.head?_map]
        simp
        intro heq
        exact hshne (by
          have : (String.mk sh).data = ("" : String).data := by rw [heq]
          simpa using this)
      · rw [List.getLast?_map, hgl]
        simp
        intro heq
        exact hxne (by
          have : (String.mk x).data = ("" : String).data := by rw [heq]
          simpa using this)
    | none => simp at hgl

/-- A string starting with `##` also starts with `#`. -/
theorem pyStartsWith_hh (line : String) (h : pyStartsWith line "##" = true) :
    pyStartsWith line "#" = true := by
  unfold pyStartsWith at h ⊢
  rw [List.isPrefixOf_iff_prefix] at h ⊢
  have hp : ("#" : String).data <+: ("##" : String).data := ⟨['#'], rfl⟩
  exact hp.trans h

/-- Tokenization rule as the claim states it (not the source): only
percent-decode, split on `/`, and drop one leading and one trailing
empty token — with no prior stripping of surrounding whitespace and
slashes. -/
def claimedTokens (path : String) : List String :=
  (tokenizeL (unquoteL path.data)).map String.mk

example : tokensOf "/r/test/comments/ab1" = ["r", "test", "comments", "ab1"] := by decide

example : parse_reddit_url ext0 "%2F" = .error .indexError := by decide

example : tokensOf "%2F%2Fa" = ["", "a"] := by decide

example : parse_reddit_url ext0 "/r/test/comments/ab1"
    = .ok "gemini://g.example/r/test/comments/ab1" := by decide

example : display_redditor ext0 env0 "bob"
    = .ok ["# Redditor: bob",
           "Redditor since 01/01/2020 (1 link karma, 2 comment karma)",
           "", "# Submissions", "",
           "# Comments", ""] := by decide

/-- Twenty-six identical comments: one more than `ITEM_LIMIT`. -/
def manyComments : List CommentM := List.replicate 26 comment0

/-- A submission with 26 top-level comments. -/
def submissionMany : SubmissionM := { submission0 with comments := manyComments }

/-- A comment with 26 replies. -/
def commentMany : CommentM :=
  .mk "body text" "/r/test/comments/abc/slug/de1" "t3_abc" (some "alice") 0 false 1
    manyComments "Hello"

/-- A praw client serving the 26-item fixtures. -/
def envMany : RedditEnv :=
  { env0 with
    submission := fun _ => submissionMany
    comment := fun _ => commentMany }

/-- A suspended redditor. -/
def redditorSusp : RedditorM :=
  { redditor0 with name := "eve", isSuspended := some true }

/-- A praw client whose redditors are all suspended. -/
def envSusp : RedditEnv := { env0 with redditor := fun _ => redditorSusp }

/-- A praw client whose subreddits have two hot submissions. -/
def envTwoHot : RedditEnv :=
  { env0 with subreddit := fun _ => { subreddit0 with hot := fun _ => [submission0, submission0] } }

/-- A line already present before the items section survives into the
successful output of `items_section`. -/
theorem items_section_ok_mem (ext : Ext) (lines : List String)
    (items : List CommentM) (ls : List String) (x : String)
    (hx : x ∈ lines) (h : items_section ext lines items = .ok ls) : x ∈ ls := by
  unfold items_section at h
  split at h
  · simp at h
    rw [← h]
    simp [hx]
  · split at h
    · simp at h
    · simp at h
      rw [← h]
      simp [hx]

/-- Whatever branch `display_submission` takes, the successful output
contains its count line (score, total top-level comments, shown count). -/
theorem display_submission_ok_count_mem (ext : Ext) (env : RedditEnv)
    (sid : String) (ls : List String)
    (hls : display_submission ext env sid = .ok ls) :
    (toString (env.submission sid).score ++ " upvotes, "
      ++ toString (env.submission sid).comments.length
      ++ " top-level comments (showing "
      ++ toString ((env.submission sid).comments.take ITEM_LIMIT).length ++ ")") ∈ ls := by
  simp only [display_submission] at hls
  split at hls
  · split at hls
    · simp at hls
    · exact items_section_ok_mem _ _ _ _ _ (by simp) hls
  · exact items_section_ok_mem _ _ _ _ _ (by simp) hls

/-- Whatever branch `display_comment` takes, the successful output
contains its count line (score, total replies, shown count). -/
theorem display_comment_ok_count_mem (ext : Ext) (env : RedditEnv)
    (cid : String) (ls : List String)
    (hls : display_comment ext env cid = .ok ls) :
    (toString (env.comment cid).score ++ " upvotes, "
      ++ toString (env.comment cid).replies.length
      ++ " direct replies (showing "
      ++ toString ((env.comment cid).replies.take ITEM_LIMIT).length ++ ")") ∈ ls := by
  simp only [display_comment] at hls
  split at hls
  · simp at hls
  · split at hls
    · simp at hls
    · split at hls
      · simp at hls
      · split at hls
        · exact items_section_ok_mem _ _ _ _ _ (by simp) hls
        · exact items_section_ok_mem _ _ _ _ _ (by simp) hls

/-- The only error `check_handle_request` can produce is the
`IndexError` from an empty token list. -/
theorem check_handle_request_error (p q : String) (e : PyErr)
    (h : check_handle_request p q = .error e) : e = .indexError := by
  simp only [check_handle_request] at h
  by_cases hp : (strippedPath p).isEmpty = true
  · rw [if_pos hp] at h
    simp at h
  · rw [if_neg hp] at h
    cases ht : tokensOf p with
    | nil =>
      rw [ht] at h
      simp at h
      exact h.symm
    | cons cmd rest =>
      rw [ht] at h
      by_cases hcr : cmd = "r"
      · simp [hcr] at h
      · by_cases hcu : cmd = "u"
        · simp [hcr, hcu] at h
        · simp [hcr, hcu] at h

/-- The only error `parse_reddit_url` can produce is the `IndexError`
propagated from the check-only router. -/
theorem parse_reddit_url_error (ext : Ext) (u : String) (e : PyErr)
    (h : parse_reddit_url ext u = .error e) : e = .indexError := by
  simp only [parse_reddit_url] at h
  have handleMatch : ∀ hm :
      (match check_handle_request (urlparse u).path (urlparse u).query with
        | Except.error e => (Except.error e : Except PyErr String)
        | Except.ok true =>
          Except.ok (ext.baseURL ++ String.mk ((urlparse u).path.data.dropWhile isSlash))
        | Except.ok false => Except.ok u) = .error e,
      e = PyErr.indexError := by
    intro hm
    cases hc : check_handle_request (urlparse u).path (urlparse u).query with
    | error e2 =>
      rw [hc] at hm
      simp at hm
      exact hm ▸ check_handle_request_error _ _ e2 hc
    | ok b =>
      rw [hc] at hm
      cases b
      · simp at hm
      · simp at hm
  by_cases hrel : (urlparse u).scheme = "" ∧ (urlparse u).netloc = ""
  · rw [if_pos hrel] at h
    simp only [if_pos rfl] at h
    exact handleMatch h
  · rw [if_neg hrel] at h
    cases hd : decide (lastTwo (pySplit '.' (urlparse u).netloc) ∈ REDDIT_DOMAINS) with
    | false =>
      rw [hd] at h
      simp at h
    | true =>
      rw [hd] at h
      simp only [if_pos rfl] at h
      exact handleMatch h

/-- The only error `markdownLine` can produce is an `IndexError`. -/
theorem markdownLine_error (ext : Ext) (l : String) (e : PyErr)
    (h : markdownLine ext l = .error e) : e = .indexError := by
  unfold markdownLine at h
  split at h
  · simp at h
  · split at h
    · split at h
      · split at h
        · rename_i e2 he2
          simp at h
          exact h ▸ parse_reddit_url_error _ _ e2 he2
        · simp at h
      · simp at h
        exact h.symm
    · simp at h

/-- The only error `mapLinesM` can produce is an `IndexError`. -/
theorem mapLinesM_error (ext : Ext) (ls : List String) (e : PyErr)
    (h : mapLinesM ext ls = .error e) : e = .indexError := by
  induction ls with
  | nil => simp [mapLinesM] at h
  | cons l rest ih =>
    unfold mapLinesM at h
    split at h
    · rename_i e2 he2
      simp at h
      exact h ▸ markdownLine_error _ _ e2 he2
    · split at h
      · rename_i e2 he2
        simp at h
        exact ih (h ▸ he2)
      · simp at h

/-- The only error `parse_markdown` can produce is an `IndexError`. -/
theorem parse_markdown_error (ext : Ext) (md : String) (e : PyErr)
    (h : parse_markdown ext md = .error e) : e = .indexError :=
  mapLinesM_error ext _ e h

/-- The only error `get_submission_url` can produce is an `IndexError`. -/
theorem get_submission_url_error (ext : Ext) (c : CommentM) (e : PyErr)
    (h : get_submission_url ext c = .error e) : e = .indexError :=
  parse_reddit_url_error ext _ e h

/-- The only error `submission_summary` can produce is an `IndexError`. -/
theorem submission_summary_error (ext : Ext) (s : SubmissionM) (e : PyErr)
    (h : submission_summary ext s = .error e) : e = .indexError := by
  unfold submission_summary at h
  split at h
  · rename_i e2 he2
    simp at h
    exact h ▸ parse_reddit_url_error _ _ e2 he2
  · split at h
    · rename_i e2 he2
      simp at h
      exact h ▸ parse_reddit_url_error _ _ e2 he2
    · simp at h

/-- The only error `submission_blocks` can produce is an `IndexError`. -/
theorem submission_blocks_error (ext : Ext) (l : List SubmissionM) (e : PyErr)
    (h : submission_blocks ext l = .error e) : e = .indexError := by
  induction l with
  | nil => simp [submission_blocks] at h
  | cons s rest ih =>
    unfold submission_blocks at h
    split at h
    · rename_i e2 he2
      simp at h
      exact h ▸ submission_summary_error _ _ e2 he2
    · split at h
      · rename_i e2 he2
        simp at h
        exact ih (h ▸ he2)
      · simp at h

/-- The only error `comment_summary` can produce is an `IndexError`. -/
theorem comment_summary_error (ext : Ext) (c : CommentM) (b : Bool) (e : PyErr)
    (h : comment_summary ext c b = .error e) : e = .indexError := by
  unfold comment_summary at h
  split at h
  · rename_i e2 he2
    simp at h
    exact h ▸ parse_markdown_error _ _ e2 he2
  · split at h
    · rename_i e2 he2
      simp at h
      exact h ▸ parse_reddit_url_error _ _ e2 he2
    · simp at h

/-- The only error `comment_blocks` can produce is an `IndexError`. -/
theorem comment_blocks_error (ext : Ext) (b : Bool) (l : List CommentM) (e : PyErr)
    (h : comment_blocks ext b l = .error e) : e = .indexError := by
  induction l with
  | nil => simp [comment_blocks] at h
  | cons c rest ih =>
    unfold comment_blocks at h
    split at h
    · rename_i e2 he2
      simp at h
      exact h ▸ comment_summary_error _ _ _ e2 he2
    · split at h
      · rename_i e2 he2
        simp at h
        exact ih (h ▸ he2)
      · simp at h

/-- `items_section` errors are `IndexError`s. -/
theorem items_section_error (ext : Ext) (lines : List String)
    (items : List CommentM) (e : PyErr)
    (h : items_section ext lines items = .error e) : e = .indexError := by
  unfold items_section at h
  split at h
  · simp at h
  · split at h
    · rename_i e2 he2
      simp at h
      exact h ▸ comment_blocks_error _ _ _ e2 he2
    · simp at h

/-- `get_parent_url` errors are never the bad-sortby `ValueError`. -/
theorem get_parent_url_not_sortby (ext : Ext) (c : CommentM) (e : PyErr)
    (h : get_parent_url ext c = .error e) : e.isSortby = false := by
  simp only [get_parent_url] at h
  by_cases h1 : pyStartsWith c.parentId "t1_" = true
  · rw [if_pos h1] at h
    cases hc : parse_reddit_url ext (joinSep "/" (parent_fragments c)) with
    | error e2 =>
      rw [hc] at h
      simp at h
      rw [← h, parse_reddit_url_error _ _ e2 hc]
      rfl
    | ok u2 =>
      rw [hc] at h
      simp at h
  · rw [if_neg h1] at h
    by_cases h3 : pyStartsWith c.parentId "t3_" = true
    · rw [if_pos h3] at h
      cases hc : get_submission_url ext c with
      | error e2 =>
        rw [hc] at h
        simp at h
        rw [← h, get_submission_url_error _ _ e2 hc]
        rfl
      | ok u2 =>
        rw [hc] at h
        simp at h
    · rw [if_neg h3] at h
      simp at h
      rw [← h]
      rfl

/-- `display_submission` errors are never the bad-sortby `ValueError`. -/
theorem display_submission_not_sortby (ext : Ext) (env : RedditEnv)
    (sid : String) (e : PyErr)
    (h : display_submission ext env sid = .error e) : e.isSortby = false := by
  simp only [display_submission] at h
  split at h
  · split at h
    · rename_i e2 he2
      simp at h
      rw [← h, parse_markdown_error _ _ e2 he2]
      rfl
    · rw [items_section_error _ _ _ _ h]
      rfl
  · rw [items_section_error _ _ _ _ h]
    rfl

/-- `display_comment` errors are never the bad-sortby `ValueError`. -/
theorem display_comment_not_sortby (ext : Ext) (env : RedditEnv)
    (cid : String) (e : PyErr)
    (h : display_comment ext env cid = .error e) : e.isSortby = false := by
  simp only [display_comment] at h
  split at h
  · rename_i e2 he2
    simp at h
    rw [← h, parse_markdown_error _ _ e2 he2]
    rfl
  · split at h
    · rename_i e2 he2
      simp at h
      rw [← h, get_submission_url_error _ _ e2 he2]
      rfl
    · split at h
      · rename_i e2 he2
        simp at h
        exact h ▸ get_parent_url_not_sortby _ _ e2 he2
      · split at h
        · rw [items_section_error _ _ _ _ h]
          rfl
        · rw [items_section_error _ _ _ _ h]
          rfl

/-- The Submissions section of a profile surfaces only
`submission_blocks` errors. -/
theorem redditor_submission_section_error (ext : Ext) (r : RedditorM)
    (e : PyErr) (h : redditor_submission_section ext r = .error e) :
    e.isSortby = false := by
  have h2 : submission_blocks ext (r.submissionsNew ITEM_LIMIT) = .error e := h
  rw [submission_blocks_error _ _ _ h2]
  rfl

/-- The Comments section of a profile surfaces only `comment_blocks`
errors. -/
theorem redditor_comment_section_error (ext : Ext) (r : RedditorM)
    (e : PyErr) (h : redditor_comment_section ext r = .error e) :
    e.isSortby = false := by
  have h2 : comment_blocks ext false (r.commentsNew ITEM_LIMIT) = .error e := h
  rw [comment_blocks_error _ _ _ _ h2]
  rfl

/-- `display_redditor` errors are never the bad-sortby `ValueError`. -/
theorem display_redditor_not_sortby (ext : Ext) (env : RedditEnv)
    (name : String) (e : PyErr)
    (h : display_redditor ext env name = .error e) : e.isSortby = false := by
  simp only [display_redditor] at h
  split at h
  · simp at h
  · split at h
    · rename_i e2 he2
      simp at h
      rw [← h]
      exact redditor_submission_section_error _ _ e2 he2
    · split at h
      · rename_i e2 he2
        simp at h
        rw [← h]
        exact redditor_comment_section_error _ _ e2 he2
      · simp at h

/-- The tail of `display_subreddit` after listing selection surfaces
only `submission_blocks` errors. -/
theorem display_subreddit_blocks_not_sortby (ext : Ext) (lines : List String)
    (submissions : List SubmissionM) (e : PyErr)
    (h : (match submission_blocks ext submissions with
          | Except.error e => (Except.error e : Except PyErr (List String))
          | Except.ok blocks => Except.ok (lines ++ blocks)) = .error e) :
    e.isSortby = false := by
  cases hb : submission_blocks ext submissions with
  | error e2 =>
    rw [hb] at h
    simp at h
    rw [← h, submission_blocks_error _ _ e2 hb]
    rfl
  | ok blocks =>
    rw [hb] at h
    simp at h

/-- With the sort key `hot` that the Router passes, `display_subreddit`
never raises the bad-sortby `ValueError`. -/
theorem display_subreddit_hot_not_sortby (ext : Ext) (env : RedditEnv)
    (name : String) (limit : Nat) (e : PyErr)
    (h : display_subreddit ext env name "hot" limit = .error e) :
    e.isSortby = false := by
  simp only [display_subreddit] at h
  exact display_subreddit_blocks_not_sortby ext _ _ e h

/-- `handle_r` never surfaces the bad-sortby `ValueError`. -/
theorem handle_r_not_sortby (ext : Ext) (env : RedditEnv)
    (tokens : List String) (p q : String) (e : PyErr)
    (h : handle_r ext env tokens p q = .error e) : e.isSortby = false := by
  simp only [handle_r] at h
  split at h
  · split at h
    · rename_i e2 he2
      simp at h
      rw [← h]
      exact display_comment_not_sortby _ _ _ e2 he2
    · simp at h
  · split at h
    · split at h
      · rename_i e2 he2
        simp at h
        rw [← h]
        exact display_submission_not_sortby _ _ _ e2 he2
      · simp at h
    · split at h
      · split at h
        · rename_i e2 he2
          simp at h
          rw [← h]
          exact display_subreddit_hot_not_sortby _ _ _ _ e2 he2
        · simp at h
      · split at h
        · simp at h
        · split at h
          · simp at h
          · simp at h

/-- `handle_u` never surfaces the bad-sortby `ValueError`. -/
theorem handle_u_not_sortby (ext : Ext) (env : RedditEnv)
    (tokens : List String) (p q : String) (e : PyErr)
    (h : handle_u ext env tokens p q = .error e) : e.isSortby = false := by
  simp only [handle_u] at h
  split at h
  · split at h
    · split at h
      · rename_i e2 he2
        simp at h
        rw [← h]
        exact display_redditor_not_sortby _ _ _ e2 he2
      · simp at h
    · simp at h
  · split at h
    · simp at h
    · simp at h

/-- `handle_request` never surfaces the bad-sortby `ValueError`. -/
theorem handle_request_not_sortby (ext : Ext) (env : RedditEnv)
    (path query : String) (e : PyErr)
    (h : handle_request ext env path query = .error e) : e.isSortby = false := by
  simp only [handle_request] at h
  by_cases hp : (strippedPath path).isEmpty = true
  · rw [if_pos hp] at h
    cases hlp : ext.landingPage with
    | some fl => rw [hlp] at h; simp at h
    | none => rw [hlp] at h; simp at h
  · rw [if_neg hp] at h
    cases ht : tokensOf path with
    | nil =>
      rw [ht] at h
      simp at h
      rw [← h]
      rfl
    | cons cmd rest =>
      rw [ht] at h
      by_cases hcr : cmd = "r"
      · subst hcr
        simp at h
        exact handle_r_not_sortby _ _ _ _ _ _ h
      · by_cases hcu : cmd = "u"
        · subst hcu
          simp [hcr] at h
          exact handle_u_not_sortby _ _ _ _ _ _ h
        · simp [hcr, hcu] at h

/-- Whenever the listing selection succeeds (a recognized sort key),
`display_subreddit` cannot raise the bad-sortby `ValueError`. -/
theorem display_subreddit_ok_listing_not_sortby (ext : Ext) (env : RedditEnv)
    (name sortby : String) (limit : Nat) (subs : List SubmissionM) (e : PyErr)
    (hsel : selectListing (env.subreddit name) sortby = .ok subs)
    (h : display_subreddit ext env name sortby limit = .error e) :
    e.isSortby = false := by
  simp only [display_subreddit] at h
  rw [hsel] at h
  exact display_subreddit_blocks_not_sortby ext _ _ e h

/-- Check-only and live `handle_r` take the bad-request branch under
exactly the same token shapes. -/
theorem handle_r_badRequest_iff (ext : Ext) (env : RedditEnv)
    (tokens : List String) (p q : String) :
    check_handle_r tokens = false ↔
    ∃ msg, handle_r ext env tokens p q = .ok (.badRequest msg) := by
  simp only [check_handle_r, handle_r]
  split_ifs with h1 h2 h3 h4 h5
  · cases hd : display_comment ext env (tokens[4]?.getD "") <;>
      simp [hd, ok_response]
  · cases hd : display_submission ext env (tokens[2]?.getD "") <;>
      simp [hd, ok_response]
  · cases hd : display_subreddit ext env (tokens[0]?.getD "") "hot" 10 <;>
      simp [hd, ok_response]
  · simp [redirect]
  · simp [get_input]
  · simp [bad_request]

/-- Check-only and live `handle_u` take the bad-request branch under
exactly the same token shapes. -/
theorem handle_u_badRequest_iff (ext : Ext) (env : RedditEnv)
    (tokens : List String) (p q : String) :
    check_handle_u tokens = false ↔
    ∃ msg, handle_u ext env tokens p q = .ok (.badRequest msg) := by
  simp only [check_handle_u, handle_u]
  split_ifs with h1 h2 h3
  · simp [redirect]
  · simp [get_input]
  · cases hd : display_redditor ext env (tokens[0]?.getD "") <;>
      simp [hd, ok_response]
  · simp [bad_request]

/-- Check-only and live `handle_request` agree: the check returns
`false` exactly when live dispatch produces a bad-request response, and
the check raises exactly when live dispatch raises at tokenization. -/
theorem handle_request_agree (ext : Ext) (env : RedditEnv) (path query : String) :
    (check_handle_request path query = .ok false ↔
       ∃ msg, handle_request ext env path query = .ok (.badRequest msg)) ∧
    (∀ e, check_handle_request path query = .error e →
       handle_request ext env path query = .error .indexError) := by
  simp only [check_handle_request, handle_request]
  by_cases hp : (strippedPath path).isEmpty = true
  · constructor
    · rw [if_pos hp, if_pos hp]
      cases hlp : ext.landingPage with
      | some fl => simp [ok_response]
      | none => simp [ok_response]
    · intro e he
      rw [if_pos hp] at he
      simp at he
  · rw [if_neg hp, if_neg hp]
    cases ht : tokensOf path with
    | nil =>
      constructor
      · simp
      · intro e he
        rfl
    | cons cmd rest =>
      by_cases hcr : cmd = "r"
      · subst hcr
        constructor
        · have hiff := handle_r_badRequest_iff ext env rest (String.mk (strippedPath path)) query
          simpa using hiff
        · intro e he
          simp at he
      · by_cases hcu : cmd = "u"
        · subst hcu
          constructor
          · have hiff := handle_u_badRequest_iff ext env rest (String.mk (strippedPath path)) query
            simpa [hcr] using hiff
          · intro e he
            simp [hcr] at he
        · constructor
          · simp [hcr, hcu, bad_request]
          · intro e he
            simp [hcr, hcu] at he

/-!  Claim theorems. -/

/-- C7: for a suspended account, `display_redditor` returns exactly the
two lines — heading and suspension notice — whatever the redditor's
other data, fetching and rendering nothing else, and raises no fault. -/
theorem C7_suspended_short_circuit (ext : Ext) (env : RedditEnv) (name : String)
    (h : (env.redditor name).isSuspended = some true) :
    display_redditor ext env name =
      .ok ["# Redditor: " ++ (env.redditor name).name,
           "User is banned or suspended."] := by
  simp [display_redditor, h]

/-- Witness for C7 at a concrete suspended account. -/
theorem C7_suspended_short_circuit_witness :
    (envSusp.redditor "eve").isSuspended = some true ∧
    display_redditor ext0 envSusp "eve" =
      .ok ["# Redditor: " ++ (envSusp.redditor "eve").name,
           "User is banned or suspended."] :=
  ⟨by decide, C7_suspended_short_circuit ext0 envSusp "eve" (by decide)⟩

/-- C5: refuted by the praw semantics the source relies on.  The guards
`if not submissions:` in `display_subreddit` and `if submissions:` /
`if comments:` in `display_redditor` test a praw `ListingGenerator`,
which defines neither `__bool__` nor `__len__` and is therefore always
truthy, so all three placeholder branches are unreachable: each profile
section is always the block list of its items, and an empty listing
renders its bare section header with no placeholder line. -/
theorem C5_placeholders_unreachable :
    (∀ (ext : Ext) (r : RedditorM),
       redditor_submission_section ext r
         = submission_blocks ext (r.submissionsNew ITEM_LIMIT) ∧
       redditor_comment_section ext r
         = comment_blocks ext false (r.commentsNew ITEM_LIMIT)) ∧
    display_subreddit ext0 env0 "test" "hot" 10
      = .ok ["# Subreddit: test", "Created on 01/01/2020. 7 subscribers.", "",
             "## Submissions"] ∧
    redditor_submission_section ext0 redditor0 = .ok [] ∧
    redditor_comment_section ext0 redditor0 = .ok [] :=
  ⟨fun ext r => ⟨rfl, rfl⟩, by decide, by decide, by decide⟩

/-- C6: when a submission has more than `ITEM_LIMIT` (25) top-level
comments, exactly 25 are taken for rendering and the count line reports
the true total together with the capped shown count; likewise for the
replies of a comment thread page. -/
theorem C6_pagination_cap (ext : Ext) (env : RedditEnv) (sid cid : String) :
    ((env.submission sid).comments.length > ITEM_LIMIT →
      ((env.submission sid).comments.take ITEM_LIMIT).length = 25 ∧
      ∀ ls, display_submission ext env sid = .ok ls →
        (toString (env.submission sid).score ++ " upvotes, "
          ++ toString (env.submission sid).comments.length
          ++ " top-level comments (showing " ++ toString (25 : Nat) ++ ")") ∈ ls) ∧
    ((env.comment cid).replies.length > ITEM_LIMIT →
      ((env.comment cid).replies.take ITEM_LIMIT).length = 25 ∧
      ∀ ls, display_comment ext env cid = .ok ls →
        (toString (env.comment cid).score ++ " upvotes, "
          ++ toString (env.comment cid).replies.length
          ++ " direct replies (showing " ++ toString (25 : Nat) ++ ")") ∈ ls) := by
  constructor
  · intro h
    have htake : ((env.submission sid).comments.take ITEM_LIMIT).length = 25 := by
      rw [List.length_take]
      unfold ITEM_LIMIT at h ⊢
      omega
    refine ⟨htake, ?_⟩
    intro ls hls
    have hm := display_submission_ok_count_mem ext env sid ls hls
    rw [htake] at hm
    exact hm
  · intro h
    have htake : ((env.comment cid).replies.take ITEM_LIMIT).length = 25 := by
      rw [List.length_take]
      unfold ITEM_LIMIT at h ⊢
      omega
    refine ⟨htake, ?_⟩
    intro ls hls
    have hm := display_comment_ok_count_mem ext env cid ls hls
    rw [htake] at hm
    exact hm

/-- Witness for C6 on a submission with 26 comments and a comment with
26 replies. -/
theorem C6_pagination_cap_witness :
    ((envMany.submission "s").comments.length > ITEM_LIMIT ∧
      (((envMany.submission "s").comments.take ITEM_LIMIT).length = 25 ∧
       ∀ ls, display_submission ext0 envMany "s" = .ok ls →
         (toString (envMany.submission "s").score ++ " upvotes, "
           ++ toString (envMany.submission "s").comments.length
           ++ " top-level comments (showing " ++ toString (25 : Nat) ++ ")") ∈ ls)) ∧
    ((envMany.comment "c").replies.length > ITEM_LIMIT ∧
      (((envMany.comment "c").replies.take ITEM_LIMIT).length = 25 ∧
       ∀ ls, display_comment ext0 envMany "c" = .ok ls →
         (toString (envMany.comment "c").score ++ " upvotes, "
           ++ toString (envMany.comment "c").replies.length
           ++ " direct replies (showing " ++ toString (25 : Nat) ++ ")") ∈ ls)) :=
  ⟨⟨by decide, (C6_pagination_cap ext0 envMany "s" "c").1 (by decide)⟩,
   ⟨by decide, (C6_pagination_cap ext0 envMany "s" "c").2 (by decide)⟩⟩

/-- C4: the Router's subreddit branch calls `display_subreddit` with the
default sort `hot` and default limit 10, but the formatter ignores its
`limit` parameter entirely — its output is the same for every limit, so
a caller asking for fewer than `ITEM_LIMIT` items still gets everything
the praw listing returned.  At limit 1 a two-submission listing still
renders both summaries, contradicting the `limit` docstring. -/
theorem C4_limit_ignored :
    (∀ (ext : Ext) (env : RedditEnv) (name sortby : String) (l1 l2 : Nat),
       display_subreddit ext env name sortby l1 = display_subreddit ext env name sortby l2) ∧
    display_subreddit ext0 envTwoHot "test" "hot" 1 = .ok
      ["# Subreddit: test",
       "Created on 01/01/2020. 7 subscribers.",
       "",
       "## Submissions",
       "=> https://example.com/x Hello",
       "created by alice on 01/01/2020 - 5 upvotes (https, example.com)",
       "=> gemini://g.example/r/test/comments/ab1 3 comments",
       "",
       "=> https://example.com/x Hello",
       "created by alice on 01/01/2020 - 5 upvotes (https, example.com)",
       "=> gemini://g.example/r/test/comments/ab1 3 comments",
       ""] :=
  ⟨fun _ _ _ _ _ _ => rfl, by decide⟩

/-- C2, counterexample: the claim fails on the code in both parts.  The
path `%2F%2Fa` (no raw slashes, so the initial strip is a no-op) decodes
to `//a`, and after dropping only one leading empty token the token list
of `handle_request` begins with an empty token.  Moreover, for the path
`//a`, the rule as the claim words it (decode, split, drop one leading
and one trailing empty token) yields `["", "a"]`, while `handle_request`
first strips all surrounding slashes and yields `["a"]`. -/
theorem C2_tokens_counterexample :
    (tokensOf "%2F%2Fa").head? = some "" ∧
    claimedTokens "//a" = ["", "a"] ∧
    tokensOf "//a" = ["a"] := by decide

/-- C2, amended: `handle_request` first strips surrounding whitespace
and all leading and trailing slashes, then percent-decodes, splits on
`/`, and drops at most one leading and one trailing empty token;
consequently, for every path free of percent escapes the token list
never begins nor ends with an empty token. -/
theorem C2_tokens_amended (path : String) (h : ¬ '%' ∈ path.data) :
    (tokensOf path).head? ≠ some "" ∧ (tokensOf path).getLast? ≠ some "" :=
  tokensOf_no_pct path h

/-- Witness for the amended C2 at the concrete path `/a//b/`. -/
theorem C2_tokens_amended_witness :
    (¬ '%' ∈ ("/a//b/" : String).data) ∧
    ((tokensOf "/a//b/").head? ≠ some "" ∧ (tokensOf "/a//b/").getLast? ≠ some "") :=
  ⟨by decide, C2_tokens_amended "/a//b/" (by decide)⟩

/-- C3: `parse_reddit_url` does raise for a URL whose path
percent-decodes to only slashes.  For the input `%2F` the stripped path
is non-blank, yet the token list is empty, and the `tokens[0]` access in
`handle_request` raises an `IndexError` that propagates out of
`parse_reddit_url` instead of the URL being returned unchanged. -/
theorem C3_parse_reddit_url_raises :
    strippedPath "%2F" ≠ [] ∧
    tokensOf "%2F" = [] ∧
    check_handle_request "%2F" "" = .error .indexError ∧
    parse_reddit_url ext0 "%2F" = .error .indexError := by decide

/-- C9: in `parse_markdown`, the guard `line.startswith('#') or
line.startswith('##')` is equivalent to `line.startswith('#')`, and any
line beginning with `#` — whatever its heading level, including `###` —
has one more marker prepended. -/
theorem C9_heading_markers :
    (∀ line : String,
       (pyStartsWith line "#" || pyStartsWith line "##") = pyStartsWith line "#") ∧
    (∀ (ext : Ext) (line : String), pyStartsWith line "#" = true →
       markdownLine ext line = .ok ("#" ++ line)) := by
  constructor
  · intro line
    cases h : pyStartsWith line "#"
    · cases h2 : pyStartsWith line "##"
      · simp
      · rw [pyStartsWith_hh line h2] at h
        exact absurd h (by simp)
    · simp
  · intro ext line h
    unfold markdownLine
    rw [h]
    simp

/-- Witness for C9: the three-marker line `### x` is rewritten to the
four-marker line `#### x`. -/
theorem C9_heading_markers_witness :
    pyStartsWith "### x" "#" = true ∧
    markdownLine ext0 "### x" = .ok "#### x" := by
  refine ⟨by decide, ?_⟩
  have h := C9_heading_markers.2 ext0 "### x" (by decide)
  rw [h]
  rfl

/-- C10: for a comment whose parent is a comment, `get_parent_url`
builds the last path fragment with `parent_id.lstrip('t1_')`, a
character-set strip: the fragment equals the strip of the whole id, the
strip continues past the `t1_` prefix into the parent id proper, and
whenever the parent id itself begins with `t`, `1` or `_` the resulting
fragment differs from the true parent id. -/
theorem C10_parent_lstrip :
    (∀ comment : CommentM,
       (parent_fragments comment).getLast? = some (lstripChars "t1_" comment.parentId)) ∧
    (∀ pid : String, lstripChars "t1_" ("t1_" ++ pid) = lstripChars "t1_" pid) ∧
    (∀ (pid : String) (ch : Char), pid.data.head? = some ch →
       "t1_".data.contains ch = true →
       lstripChars "t1_" ("t1_" ++ pid) ≠ pid) := by
  have hstrip : ∀ pid : String, lstripChars "t1_" ("t1_" ++ pid) = lstripChars "t1_" pid := by
    intro pid
    unfold lstripChars
    rw [String.data_append]
    have h3 : ("t1_" : String).data = ['t', '1', '_'] := rfl
    rw [h3]
    rw [List.cons_append, List.cons_append, List.cons_append, List.nil_append]
    rw [List.dropWhile_cons_of_pos (by decide),
        List.dropWhile_cons_of_pos (by decide),
        List.dropWhile_cons_of_pos (by decide)]
  refine ⟨?_, hstrip, ?_⟩
  · intro comment
    unfold parent_fragments
    exact List.getLast?_concat _
  · intro pid ch hh hch heq
    rw [hstrip pid] at heq
    have hdata : (lstripChars "t1_" pid).data = pid.data := by rw [heq]
    unfold lstripChars at hdata
    cases hpd : pid.data with
    | nil => rw [hpd] at hh; simp at hh
    | cons c0 rest =>
      rw [hpd] at hh hdata
      simp only [List.head?_cons, Option.some.injEq] at hh
      subst hh
      have hdata2 : List.dropWhile (fun c => ("t1_" : String).data.contains c)
          (c0 :: rest) = c0 :: rest := hdata
      rw [List.dropWhile_cons_of_pos (by simpa using hch)] at hdata2
      have hlen : (rest.dropWhile (fun c => ("t1_" : String).data.contains c)).length
          ≤ rest.length := (List.dropWhile_suffix _).sublist.length_le
      rw [hdata2] at hlen
      simp at hlen

/-- Witness for C10 at the parent id `t1_t123`: the fragment is `23`,
not `t123`. -/
theorem C10_parent_lstrip_witness :
    (parent_fragments comment0).getLast? = some (lstripChars "t1_" comment0.parentId) ∧
    ("t123" : String).data.head? = some 't' ∧
    lstripChars "t1_" ("t1_" ++ "t123") ≠ "t123" :=
  ⟨C10_parent_lstrip.1 comment0, by decide,
   C10_parent_lstrip.2.2 "t123" 't' (by decide) (by decide)⟩

/-- C8: `display_subreddit` raises the bad-sortby `ValueError` exactly
when its sort key is not one of the four recognized orders, and request
dispatch never surfaces that error (the Router only ever passes `hot`). -/
theorem C8_sortby_error :
    (∀ (ext : Ext) (env : RedditEnv) (name sortby : String) (limit : Nat),
       ((∃ msg, display_subreddit ext env name sortby limit
           = .error (.valueErrorSortby msg)) ↔
        ¬ (sortby = "hot" ∨ sortby = "top" ∨ sortby = "new" ∨
           sortby = "controversial"))) ∧
    (∀ (ext : Ext) (env : RedditEnv) (path query : String) (e : PyErr),
       handle_request ext env path query = .error e → e.isSortby = false) := by
  constructor
  · intro ext env name sortby limit
    constructor
    · rintro ⟨msg, hmsg⟩ hvalid
      have hsel : ∃ subs, selectListing (env.subreddit name) sortby = .ok subs := by
        unfold selectListing
        rcases hvalid with h | h | h | h <;> subst h <;> simp
      rcases hsel with ⟨subs, hsel⟩
      have hns := display_subreddit_ok_listing_not_sortby ext env name sortby
        limit subs _ hsel hmsg
      simp [PyErr.isSortby] at hns
    · intro hinvalid
      have h1 : ¬ sortby = "hot" := fun h => hinvalid (Or.inl h)
      have h2 : ¬ sortby = "top" := fun h => hinvalid (Or.inr (Or.inl h))
      have h3 : ¬ sortby = "new" := fun h => hinvalid (Or.inr (Or.inr (Or.inl h)))
      have h4 : ¬ sortby = "controversial" :=
        fun h => hinvalid (Or.inr (Or.inr (Or.inr h)))
      refine ⟨"Bad value for sortby: \"" ++ sortby ++ "\".", ?_⟩
      have hsel : selectListing (env.subreddit name) sortby =
          .error (.valueErrorSortby ("Bad value for sortby: \"" ++ sortby ++ "\".")) := by
        unfold selectListing
        rw [if_neg h1, if_neg h2, if_neg h3, if_neg h4]
      simp only [display_subreddit]
      rw [hsel]
  · intro ext env path query e h
    exact handle_request_not_sortby ext env path query e h

/-- Witness for C8: the sort key `weird` is rejected with the
`ValueError`, and the error dispatched for the raising path `%2F` is the
`IndexError`, not the sortby error. -/
theorem C8_sortby_error_witness :
    (∃ msg, display_subreddit ext0 env0 "test" "weird" 10
       = .error (.valueErrorSortby msg)) ∧
    PyErr.isSortby .indexError = false :=
  ⟨(C8_sortby_error.1 ext0 env0 "test" "weird" 10).mpr (by decide),
   C8_sortby_error.2 ext0 env0 "%2F" "" .indexError (by decide)⟩

/-- C1: check-only and live dispatch share their branch conditions: the
check returns `false` exactly when the live call produces a bad-request
response (for `handle_request` and for each helper), the check returns
`true` exactly on the other branches, and the check raises exactly when
live dispatch raises during tokenization. -/
theorem C1_check_live_agreement (ext : Ext) (env : RedditEnv)
    (path query : String) :
    (check_handle_request path query = .ok false ↔
       ∃ msg, handle_request ext env path query = .ok (.badRequest msg)) ∧
    (check_handle_request path query = .ok true →
       ∀ msg, handle_request ext env path query ≠ .ok (.badRequest msg)) ∧
    (∀ e, check_handle_request path query = .error e →
       handle_request ext env path query = .error .indexError) ∧
    (∀ tokens p q, check_handle_r tokens = false ↔
       ∃ msg, handle_r ext env tokens p q = .ok (.badRequest msg)) ∧
    (∀ tokens p q, check_handle_u tokens = false ↔
       ∃ msg, handle_u ext env tokens p q = .ok (.badRequest msg)) := by
  have hmain := handle_request_agree ext env path query
  refine ⟨hmain.1, ?_, hmain.2,
    fun tokens p q => handle_r_badRequest_iff ext env tokens p q,
    fun tokens p q => handle_u_badRequest_iff ext env tokens p q⟩
  intro htrue msg hbad
  have hfalse : check_handle_request path query = .ok false :=
    hmain.1.mpr ⟨msg, hbad⟩
  rw [htrue] at hfalse
  simp at hfalse

/-- Witness for C1: the unsupported shape `x/y` is refused by both
modes, and the supported shape `r/test` is never answered with a
bad-request response. -/
theorem C1_check_live_agreement_witness :
    (check_handle_request "x/y" "" = .ok false ↔
       ∃ msg, handle_request ext0 env0 "x/y" "" = .ok (.badRequest msg)) ∧
    (∀ msg, handle_request ext0 env0 "r/test" "" ≠ .ok (.badRequest msg)) :=
  ⟨(C1_check_live_agreement ext0 env0 "x/y" "").1,
   (C1_check_live_agreement ext0 env0 "r/test" "").2.1 (by decide)⟩

end Remini
